import Mathlib

/-!
Verification of the trivia-API and coffee-shop backends
(`projects/02_trivia_api/starter/backend/flaskr/__init__.py` and
`projects/03_coffee_shop_full_stack/starter_code/backend/src/api.py`)
against their natural-language specification.

The route handlers are embedded shallowly: the database is a `List` of
rows passed explicitly, query-string and body parameters are explicit
arguments, and each handler returns its JSON response (or error
envelope) as a Lean value, together with the updated store for the
mutating handlers.  Python list slicing is modelled faithfully,
including its treatment of negative and out-of-range indices.
-/

/-- `QUESTIONS_PER_PAGE = 10` from `flaskr/__init__.py`. -/
def QUESTIONS_PER_PAGE : Nat := 10

/-- Python slice-index normalisation for a sequence of length `n` (step 1):
a negative index counts from the end and is clamped below at 0; a
non-negative index is clamped above at `n`. -/
def pyIndex (n : Nat) (i : Int) : Nat :=
  if i < 0 then (max 0 ((n : Int) + i)).toNat else min i.toNat n

/-- Python `l[a:b]` (step 1): normalise both bounds with `pyIndex`, then
take the elements from the normalised start (inclusive) to the
normalised stop (exclusive). -/
def pySlice {α : Type} (l : List α) (a b : Int) : List α :=
  (l.drop (pyIndex l.length a)).take (pyIndex l.length b - pyIndex l.length a)

/-- A `Question` row: id (primary key), question text, answer text,
category id, difficulty. -/
structure Question where
  id : Nat
  question : String
  answer : String
  category : Nat
  difficulty : Nat
deriving DecidableEq, Repr

/-- Modelled from the spec: `Question.format` lives in `models.py`,
which is not among the sources; per the data model it serialises the
row's id, question text, answer text, category and difficulty. -/
structure FormattedQuestion where
  id : Nat
  question : String
  answer : String
  category : Nat
  difficulty : Nat
deriving DecidableEq, Repr

/-- Modelled from the spec: the serialisation performed by
`Question.format` in the missing `models.py`. -/
def Question.format (q : Question) : FormattedQuestion :=
  ⟨q.id, q.question, q.answer, q.category, q.difficulty⟩

/-- `paginated_questions(request, selection)`: read the `page` query
parameter (default 1), format every entity of the selection, and return
the Python slice `questions[(page-1)*10 : (page-1)*10 + 10]`. -/
def paginated_questions (page : Int) (selection : List Question) :
    List FormattedQuestion :=
  let start := (page - 1) * (QUESTIONS_PER_PAGE : Int)
  let stop := start + (QUESTIONS_PER_PAGE : Int)
  pySlice (selection.map Question.format) start stop

/-- The uniform JSON error envelope `{success, error, message}`. -/
structure ErrorBody where
  success : Bool
  error : Nat
  message : String
deriving DecidableEq, Repr

/-- The trivia app's error handlers for 400, 404, 422 and 500. -/
def errorBody (code : Nat) : ErrorBody :=
  if code = 404 then ⟨false, 404, "resource not found"⟩
  else if code = 422 then ⟨false, 422, "unprocessable"⟩
  else if code = 400 then ⟨false, 400, "bad request"⟩
  else ⟨false, 500, "internal server error"⟩

/-- Insertion step of an id-ordered insertion sort on questions. -/
def insertById (q : Question) : List Question → List Question
  | [] => [q]
  | r :: rs => if q.id ≤ r.id then q :: r :: rs else r :: insertById q rs

/-- `Question.query.order_by(Question.id)`: the store sorted by id. -/
def orderById : List Question → List Question
  | [] => []
  | q :: qs => insertById q (orderById qs)

/-- A `Category` row: id (primary key) and display name. -/
structure Category where
  id : Nat
  type : String
deriving DecidableEq, Repr

/-- Insertion step of an id-ordered insertion sort on categories. -/
def insertCatById (c : Category) : List Category → List Category
  | [] => [c]
  | r :: rs => if c.id ≤ r.id then c :: r :: rs else r :: insertCatById c rs

/-- `Category.query.order_by(Category.id)`: the categories sorted by id. -/
def orderCatById : List Category → List Category
  | [] => []
  | c :: cs => insertCatById c (orderCatById cs)

/-- `get_categories()`: the `{id: type}` mapping built from the
categories ordered by id, as an association list. -/
def get_categories (cats : List Category) : List (Nat × String) :=
  (orderCatById cats).map (fun c => (c.id, c.type))

-- Basic facts about `pySlice` and the sorts.

theorem insertById_perm (q : Question) (l : List Question) :
    List.Perm (insertById q l) (q :: l) := by
  induction l with
  | nil => rfl
  | cons r rs ih =>
      simp only [insertById]
      split
      · rfl
      · exact ((ih.cons r).trans (List.Perm.swap q r rs)).symm.symm

theorem orderById_perm (l : List Question) : List.Perm (orderById l) l := by
  induction l with
  | nil => rfl
  | cons q qs ih => exact (insertById_perm q (orderById qs)).trans (ih.cons q)

theorem length_orderById (l : List Question) :
    (orderById l).length = l.length :=
  (orderById_perm l).length_eq

theorem pySlice_nil {α : Type} (a b : Int) : pySlice ([] : List α) a b = [] := by
  simp [pySlice]

/-- For non-negative bounds, a Python slice is the ordinary
take-after-drop slice, clamped to the list. -/
theorem pySlice_nonneg {α : Type} (l : List α) (a b : Int)
    (ha : 0 ≤ a) (hb : a ≤ b) :
    pySlice l a b = (l.drop a.toNat).take (b.toNat - a.toNat) := by
  have h0 : pyIndex l.length a = min a.toNat l.length := by
    simp [pyIndex, not_lt.mpr ha]
  have h1 : pyIndex l.length b = min b.toNat l.length := by
    simp [pyIndex, not_lt.mpr (le_trans ha hb)]
  rcases le_or_lt l.length a.toNat with hle | hlt
  · have hd : l.drop a.toNat = [] := List.drop_eq_nil_of_le hle
    have hd' : l.drop (min a.toNat l.length) = [] :=
      List.drop_eq_nil_of_le (by omega)
    simp [pySlice, h0, h1, hd, hd']
  · have hmin : min a.toNat l.length = a.toNat := by omega
    simp only [pySlice, h0, h1, hmin]
    rw [List.take_eq_take]
    simp [List.length_drop]
    omega

/-- A Python slice with bounds `a` and `a + k` never holds more than `k`
elements, whatever the sign of `a`. -/
theorem pySlice_length_le {α : Type} (l : List α) (a : Int) (k : Nat) :
    (pySlice l a (a + (k : Int))).length ≤ k := by
  have hidx : pyIndex l.length (a + (k : Int)) ≤ pyIndex l.length a + k := by
    unfold pyIndex
    split <;> split <;> omega
  simp only [pySlice, List.length_take, List.length_drop]
  omega

/-- For a page number `p ≥ 1`, `paginated_questions` is exactly the
take-after-drop slice of the formatted selection. -/
theorem paginated_questions_eq (p : Int) (sel : List Question) (h : 1 ≤ p) :
    paginated_questions p sel =
      ((sel.map Question.format).drop ((p - 1) * 10).toNat).take 10 := by
  have ha : (0 : Int) ≤ (p - 1) * 10 := by
    have : (0 : Int) ≤ p - 1 := by omega
    positivity
  have hb : (p - 1) * 10 ≤ (p - 1) * 10 + 10 := by omega
  simp only [paginated_questions, QUESTIONS_PER_PAGE]
  push_cast
  rw [pySlice_nonneg _ _ _ ha hb]
  congr 1
  omega

theorem paginated_questions_length_le (p : Int) (sel : List Question) :
    (paginated_questions p sel).length ≤ 10 := by
  simpa [paginated_questions, QUESTIONS_PER_PAGE] using
    pySlice_length_le (sel.map Question.format) ((p - 1) * 10) 10

/-- A page whose start index is at or beyond the selection length is
empty. -/
theorem paginated_questions_out_of_range (p : Int) (sel : List Question)
    (h : 1 ≤ p) (hlen : (sel.length : Int) ≤ (p - 1) * 10) :
    paginated_questions p sel = [] := by
  rw [paginated_questions_eq p sel h]
  have : sel.length ≤ ((p - 1) * 10).toNat := by omega
  rw [List.drop_eq_nil_of_le (by simpa using this), List.take_nil]

-- The trivia-API route handlers.

/-- Response of `GET /questions`: either the JSON body of the 200
answer or an error envelope. -/
inductive ListResp where
  | ok (questions : List FormattedQuestion) (total_questions : Nat)
       (categories : List (Nat × String)) (current_category : String)
  | err (e : ErrorBody)
deriving DecidableEq, Repr

/-- `GET /questions`: order the store by id, paginate, 404 on an empty
page, otherwise the page, the full question count, the category mapping
and the fixed label `"All"`. -/
def retrieve_questions (cats : List Category) (store : List Question)
    (page : Int) : ListResp :=
  let selection := orderById store
  let current_questions := paginated_questions page selection
  if current_questions.length = 0 then .err (errorBody 404)
  else .ok current_questions store.length (get_categories cats) "All"

/-- SQLAlchemy's `one_or_none`: `none` for an empty result, the row for
a singleton, and an error (`MultipleResultsFound`) otherwise. -/
def one_or_none {α : Type} : List α → Except Unit (Option α)
  | [] => .ok none
  | [a] => .ok (some a)
  | _ => .error ()

/-- Response of `DELETE /questions/{id}`. -/
inductive DeleteResp where
  | ok (deleted : Nat)
  | err (e : ErrorBody)
deriving DecidableEq, Repr

/-- `DELETE /questions/{id}`: everything runs inside a bare
`try/except` that aborts with 422, so the `abort(404)` raised for a
missing id (and a `MultipleResultsFound` from `one_or_none`) also
surface as 422.  On success the row is deleted, the remaining store is
re-paginated (result unused), and `{success, deleted: id}` is
returned. -/
def delete_question (store : List Question) (page : Int)
    (question_id : Nat) : DeleteResp × List Question :=
  match one_or_none (store.filter (fun q => q.id == question_id)) with
  | .error _ => (.err (errorBody 422), store)
  | .ok none => (.err (errorBody 422), store)
  | .ok (some _) =>
      let store' := store.eraseP (fun q => q.id == question_id)
      let _current_questions := paginated_questions page (orderById store')
      (.ok question_id, store')

/-- `pat` occurs as a contiguous run inside `l`. -/
def isInfixOfList (pat : List Char) : List Char → Bool
  | [] => pat.isEmpty
  | c :: rest => pat.isPrefixOf (c :: rest) || isInfixOfList pat rest

/-- `ilike("%term%")`: case-insensitive substring match.  Lower-casing
a string is mapping `Char.toLower` over its characters, performed here
directly on the character lists. -/
def ilike_match (term text : String) : Bool :=
  isInfixOfList (term.toList.map Char.toLower) (text.toList.map Char.toLower)

/-- Response of `POST /questions`. -/
inductive CreateResp where
  | okSearch (questions : List FormattedQuestion) (total_questions : Nat)
             (current_category : String)
  | okInsert
  | err (e : ErrorBody)
deriving DecidableEq, Repr

/-- Modelled from the spec: the `Question(...)` constructor and
`insert()` of the missing `models.py`.  With all four body fields
present a new row (id auto-assigned by the store) is appended; any
failure during construction/insert is reported as Unprocessable
(422). -/
def insert_question (store : List Question) (new_id : Nat) :
    Option String → Option String → Option Nat → Option Nat →
    CreateResp × List Question
  | some q, some a, some d, some c =>
      (.okInsert, store ++ [⟨new_id, q, a, c, d⟩])
  | _, _, _, _ => (.err (errorBody 422), store)

/-- `POST /questions`: when the body carries a truthy `searchTerm`
(Python's `if search:` — `None` and the empty string both fail it),
filter the id-ordered store by case-insensitive substring match,
paginate, and answer with the page, the FULL match count
(`len(selection.all())`) and the label `"All"`; otherwise insert a new
question. -/
def create_questions (store : List Question) (page : Int)
    (new_question new_answer : Option String)
    (new_difficulty new_category : Option Nat)
    (search : Option String) (new_id : Nat) : CreateResp × List Question :=
  match search with
  | some s =>
      if s = "" then
        insert_question store new_id new_question new_answer
          new_difficulty new_category
      else
        let selection :=
          (orderById store).filter (fun q => ilike_match s q.question)
        let current_questions := paginated_questions page selection
        (.okSearch current_questions selection.length "All", store)
  | none =>
      insert_question store new_id new_question new_answer
        new_difficulty new_category

/-- Response of `GET /categories/{id}/questions`. -/
inductive CatResp where
  | ok (questions : List FormattedQuestion) (total_questions : Nat)
       (current_category : String)
  | err (e : ErrorBody)
deriving DecidableEq, Repr

/-- `GET /categories/{id}/questions`: filter the store by category id
(no ordering), paginate, 404 on an empty page; otherwise answer with
the page, `total_questions = len(current_questions)` (the PAGE length),
and the category's display name — `Category.query.get(id)` returns
`None` for a missing id, so `.type` then raises and the request ends as
an unhandled 500. -/
def retrieve_questions_by_category (cats : List Category)
    (store : List Question) (page : Int) (category_id : Nat) : CatResp :=
  let selection := store.filter (fun q => q.category == category_id)
  let current_questions := paginated_questions page selection
  if current_questions.length = 0 then .err (errorBody 404)
  else
    match (cats.find? (fun c => c.id == category_id)) with
    | none => .err (errorBody 500)
    | some cat => .ok current_questions current_questions.length cat.type

/-- Response of `POST /quizzes`. -/
inductive QuizResp where
  | ok (question : FormattedQuestion)
  | err (e : ErrorBody)
deriving DecidableEq, Repr

/-- `random.choice(seq)`: picks the element at a random valid index;
on an empty sequence it raises `IndexError`.  The randomness is
supplied as the argument `r`, reduced modulo the length. -/
def random_choice {α : Type} (l : List α) (r : Nat) : Option α :=
  l.get? (r % l.length)

/-- `POST /quizzes`: filter the store to the questions of the selected
category (`0` = any) whose ids are not among `previous_questions`, then
`random.choice` one of them.  An empty candidate set makes
`random.choice` raise, which no handler catches: the request ends as an
unhandled 500.  (The subsequent `if rand_question == None: abort(404)`
never fires, since `random.choice` never returns `None`.) -/
def create_quiz (store : List Question) (prev_questions : List Nat)
    (category_id : Nat) (r : Nat) : QuizResp :=
  let candidates :=
    if category_id == 0 then
      store.filter (fun q => !(prev_questions.contains q.id))
    else
      store.filter (fun q =>
        q.category == category_id && !(prev_questions.contains q.id))
  match random_choice candidates r with
  | none => .err (errorBody 500)
  | some q => .ok q.format

-- The coffee-shop route handlers (`api.py`).  The authorization
-- decorator is an external collaborator: the embedded handlers model
-- the bodies that run once the permission check has succeeded.

/-- A `Drink` row: id (primary key), title, recipe (serialised JSON). -/
structure Drink where
  id : Nat
  title : String
  recipe : String
deriving DecidableEq, Repr

/-- The coffee-shop app's error handlers: 404 and 422 produce the
uniform envelope; anything uncaught surfaces as a plain 500. -/
def drinksErrorBody (code : Nat) : ErrorBody :=
  if code = 404 then ⟨false, 404, "resource not found"⟩
  else if code = 422 then ⟨false, 422, "unprocessable"⟩
  else ⟨false, 500, "internal server error"⟩

/-- Response of `PATCH /drinks/{id}`. -/
inductive DrinkPatchResp where
  | ok (drinks : List Drink)
  | err (e : ErrorBody)
deriving DecidableEq, Repr

/-- `PATCH /drinks/{id}`: look the row up with `one_or_none` and abort
with 404 — OUTSIDE the `try` block — when it is absent; only then enter
the `try`, overwrite title and recipe, update, and return the updated
drink's long representation in a singleton list. -/
def update_drinks (store : List Drink) (drink_id : Nat)
    (new_title new_recipe : String) : DrinkPatchResp × List Drink :=
  match one_or_none (store.filter (fun d => d.id == drink_id)) with
  | .error _ => (.err (drinksErrorBody 500), store)
  | .ok none => (.err (drinksErrorBody 404), store)
  | .ok (some d) =>
      let d' : Drink := { d with title := new_title, recipe := new_recipe }
      let store' := store.map (fun x => if x.id == drink_id then d' else x)
      (.ok [d'], store')

/-- Response of `DELETE /drinks/{id}`. -/
inductive DrinkDeleteResp where
  | ok (delete : Nat)
  | err (e : ErrorBody)
deriving DecidableEq, Repr

/-- `DELETE /drinks/{id}`: look the row up with `one_or_none` and abort
with 404 — OUTSIDE the `try` block — when it is absent; only then enter
the `try`, delete the row and return its id. -/
def delete_drinks (store : List Drink) (drink_id : Nat) :
    DrinkDeleteResp × List Drink :=
  match one_or_none (store.filter (fun d => d.id == drink_id)) with
  | .error _ => (.err (drinksErrorBody 500), store)
  | .ok none => (.err (drinksErrorBody 404), store)
  | .ok (some d) =>
      (.ok d.id, store.eraseP (fun x => x.id == drink_id))

-- Helper lemmas shared by the claim theorems.

/-- In a store with pairwise-distinct ids, at most one row matches a
given id. -/
theorem filter_id_length_le_one (store : List Question) (qid : Nat)
    (hu : store.Pairwise (fun a b => a.id ≠ b.id)) :
    (store.filter (fun q => q.id == qid)).length ≤ 1 := by
  induction store with
  | nil => simp
  | cons a t ih =>
      rcases List.pairwise_cons.mp hu with ⟨ha, ht⟩
      by_cases h : a.id = qid
      · have hnil : t.filter (fun q => q.id == qid) = [] := by
          rw [List.filter_eq_nil_iff]
          intro b hb
          simp only [beq_iff_eq]
          intro hbid
          exact ha b hb (by omega)
        simp [List.filter_cons, h, hnil]
      · simpa [List.filter_cons, h] using ih ht

/-- If at most one element satisfies `p`, then after `eraseP p` no
element satisfies `p`. -/
theorem eraseP_none_left {α : Type} (p : α → Bool) :
    ∀ l : List α, (l.filter p).length ≤ 1 →
      ∀ x ∈ l.eraseP p, p x = false := by
  intro l
  induction l with
  | nil => simp
  | cons a t ih =>
      intro hlen x hx
      by_cases hpa : p a
      · rw [List.eraseP_cons_of_pos hpa] at hx
        have hnil : t.filter p = [] := by
          rw [List.filter_cons_of_pos hpa] at hlen
          simp only [List.length_cons] at hlen
          exact List.length_eq_zero.mp (by omega)
        have := List.filter_eq_nil_iff.mp hnil x hx
        simpa using this
      · rw [List.eraseP_cons_of_neg (by simpa using hpa)] at hx
        rcases List.mem_cons.mp hx with rfl | hx'
        · simpa using hpa
        · refine ih ?_ x hx'
          rw [List.filter_cons_of_neg (by simpa using hpa)] at hlen
          exact hlen

/-- When no row matches the id, `delete_question` answers 422 and
leaves the store unchanged. -/
theorem delete_question_absent_eq (store : List Question) (page : Int)
    (qid : Nat) (h : ∀ q ∈ store, q.id ≠ qid) :
    delete_question store page qid =
      (DeleteResp.err ⟨false, 422, "unprocessable"⟩, store) := by
  have hf : store.filter (fun q => q.id == qid) = [] := by
    rw [List.filter_eq_nil_iff]
    intro q hq
    simpa using h q hq
  simp [delete_question, hf, one_or_none, errorBody]

-- Sample data used by the witness theorems.

def sampleStore : List Question :=
  [⟨1, "What is the movie title", "answer one", 1, 1⟩,
   ⟨2, "Another question", "answer two", 2, 2⟩]

def sampleCats : List Category := [⟨1, "Science"⟩, ⟨2, "Art"⟩]

-- Claim theorems.

/-- C1: for every requested page number `p` (default 1, 1-based per the
spec) and every ordered selection, the pagination helper returns exactly
the slice of the formatted sequence from index `(p-1)*10` (inclusive) to
`(p-1)*10+10` (exclusive); hence at most 10 items, and a page whose
start index is at or beyond the sequence length yields the empty
sequence.  The helper is a pure function, so it has no side effects. -/
theorem paginated_questions_page_slice (p : Int) (sel : List Question)
    (h : 1 ≤ p) :
    paginated_questions p sel =
      ((sel.map Question.format).drop ((p - 1) * 10).toNat).take 10
    ∧ (paginated_questions p sel).length ≤ 10
    ∧ ((sel.length : Int) ≤ (p - 1) * 10 → paginated_questions p sel = []) :=
  ⟨paginated_questions_eq p sel h, paginated_questions_length_le p sel,
   paginated_questions_out_of_range p sel h⟩

theorem paginated_questions_page_slice_witness :
    paginated_questions 1 sampleStore =
      ((sampleStore.map Question.format).drop (((1 : Int) - 1) * 10).toNat).take 10
    ∧ (paginated_questions 1 sampleStore).length ≤ 10
    ∧ ((sampleStore.length : Int) ≤ ((1 : Int) - 1) * 10 →
        paginated_questions 1 sampleStore = []) :=
  paginated_questions_page_slice 1 sampleStore (by decide)

/-- C2 counterexample: deleting the absent id 99 does NOT answer with
the 404 envelope — the `abort(404)` is swallowed by the handler's bare
`except`, which re-aborts with 422. -/
theorem delete_question_missing_not_404 :
    (delete_question sampleStore 1 99).1 =
      DeleteResp.err ⟨false, 422, "unprocessable"⟩
    ∧ (delete_question sampleStore 1 99).1 ≠
      DeleteResp.err ⟨false, 404, "resource not found"⟩ := by
  decide

/-- C2 (amended): for every question id absent from the store,
`DELETE /questions/{id}` fails with 422 Unprocessable (the NotFound
abort raised inside the `try` block is caught by the bare `except` and
re-signalled as 422), leaving the store unchanged. -/
theorem delete_question_missing_422 (store : List Question) (page : Int)
    (qid : Nat) (h : ∀ q ∈ store, q.id ≠ qid) :
    delete_question store page qid =
      (DeleteResp.err ⟨false, 422, "unprocessable"⟩, store) :=
  delete_question_absent_eq store page qid h

theorem delete_question_missing_422_witness :
    delete_question sampleStore 1 99 =
      (DeleteResp.err ⟨false, 422, "unprocessable"⟩, sampleStore) :=
  delete_question_missing_422 sampleStore 1 99 (by decide)

/-- C3: in a store with pairwise-distinct ids, `DELETE /questions/{id}`
answers 422 with the unprocessable envelope for an absent id, and for a
present id answers 200 with `deleted` equal to that id, the row being
subsequently absent. -/
theorem delete_question_contract (store : List Question) (page : Int)
    (qid : Nat) (hu : store.Pairwise (fun a b => a.id ≠ b.id)) :
    ((∀ q ∈ store, q.id ≠ qid) →
        delete_question store page qid =
          (DeleteResp.err ⟨false, 422, "unprocessable"⟩, store))
    ∧ ((∃ q ∈ store, q.id = qid) →
        (delete_question store page qid).1 = DeleteResp.ok qid
        ∧ ∀ q' ∈ (delete_question store page qid).2, q'.id ≠ qid) := by
  constructor
  · exact delete_question_absent_eq store page qid
  · rintro ⟨q, hq, hqid⟩
    have hle := filter_id_length_le_one store qid hu
    have hmem : q ∈ store.filter (fun q => q.id == qid) :=
      List.mem_filter.mpr ⟨hq, by simpa using hqid⟩
    have hlen1 : (store.filter (fun q => q.id == qid)).length = 1 := by
      have hpos : 0 < (store.filter (fun q => q.id == qid)).length :=
        List.length_pos.mpr (List.ne_nil_of_mem hmem)
      omega
    obtain ⟨x, hx⟩ := List.length_eq_one.mp hlen1
    have hres : delete_question store page qid =
        (DeleteResp.ok qid, store.eraseP (fun q => q.id == qid)) := by
      simp [delete_question, hx, one_or_none]
    refine ⟨by rw [hres], ?_⟩
    rw [hres]
    intro q' hq'
    have hq'm := eraseP_none_left (fun q => q.id == qid) store hle q' hq'
    simpa using hq'm

theorem delete_question_contract_witness :
    ((∀ q ∈ sampleStore, q.id ≠ 1) →
        delete_question sampleStore 1 1 =
          (DeleteResp.err ⟨false, 422, "unprocessable"⟩, sampleStore))
    ∧ ((∃ q ∈ sampleStore, q.id = 1) →
        (delete_question sampleStore 1 1).1 = DeleteResp.ok 1
        ∧ ∀ q' ∈ (delete_question sampleStore 1 1).2, q'.id ≠ 1) :=
  delete_question_contract sampleStore 1 1 (by decide)

/-- C4: when `previous_questions` covers every question of the selected
category (vacuously so when the category id matches no questions), the
candidate set is empty, `random.choice` fails, and `POST /quizzes`
answers with the unhandled-error envelope 500 — not the 404 used by the
other empty-result paths. -/
theorem create_quiz_exhausted_500 (store : List Question)
    (prev_questions : List Nat) (category_id r : Nat)
    (h : ∀ q ∈ store, (category_id = 0 ∨ q.category = category_id) →
      q.id ∈ prev_questions) :
    create_quiz store prev_questions category_id r =
      QuizResp.err ⟨false, 500, "internal server error"⟩ := by
  by_cases hc : category_id = 0
  · have hf : store.filter (fun q => !decide (q.id ∈ prev_questions)) = [] := by
      rw [List.filter_eq_nil_iff]
      intro q hq
      simp [h q hq (Or.inl hc)]
    simp [create_quiz, hc, hf, random_choice, errorBody]
  · have hf : store.filter (fun q =>
        q.category == category_id && !decide (q.id ∈ prev_questions)) = [] := by
      rw [List.filter_eq_nil_iff]
      intro q hq
      by_cases hcat : q.category = category_id
      · simp [hcat, h q hq (Or.inr hcat)]
      · simp [hcat]
    simp [create_quiz, hc, hf, random_choice, errorBody]

theorem create_quiz_exhausted_500_witness :
    create_quiz sampleStore [1] 1 0 =
      QuizResp.err ⟨false, 500, "internal server error"⟩ :=
  create_quiz_exhausted_500 sampleStore [1] 1 0 (by decide)

/-- C5: for every non-empty search term, `POST /questions` with a
`searchTerm` answers with `total_questions` equal to the number of ALL
questions whose text contains the term as a case-insensitive substring
(the full match count over the store), while the returned `questions`
list is the requested page, hence capped at 10 items. -/
theorem create_questions_search_full_count (store : List Question)
    (page : Int) (term : String) (nq na : Option String)
    (nd nc : Option Nat) (new_id : Nat) (h : term ≠ "") :
    create_questions store page nq na nd nc (some term) new_id =
      (CreateResp.okSearch
        (paginated_questions page
          ((orderById store).filter (fun q => ilike_match term q.question)))
        ((store.filter (fun q => ilike_match term q.question)).length)
        "All",
       store)
    ∧ (paginated_questions page
        ((orderById store).filter (fun q => ilike_match term q.question))).length
        ≤ 10 := by
  have hlen : ((orderById store).filter
        (fun q => ilike_match term q.question)).length
      = (store.filter (fun q => ilike_match term q.question)).length :=
    ((orderById_perm store).filter _).length_eq
  exact ⟨by simp [create_questions, h, hlen],
    paginated_questions_length_le _ _⟩

theorem create_questions_search_full_count_witness :
    create_questions sampleStore 1 none none none none (some "TITLE") 99 =
      (CreateResp.okSearch
        (paginated_questions 1
          ((orderById sampleStore).filter
            (fun q => ilike_match "TITLE" q.question)))
        ((sampleStore.filter (fun q => ilike_match "TITLE" q.question)).length)
        "All",
       sampleStore)
    ∧ (paginated_questions 1
        ((orderById sampleStore).filter
          (fun q => ilike_match "TITLE" q.question))).length ≤ 10 :=
  create_questions_search_full_count sampleStore 1 "TITLE" none none none none
    99 (by decide)

/-- C6: for every non-empty search term matching no question,
`POST /questions` with that `searchTerm` answers 200 with
`questions = []` and `total_questions = 0`, not a 404 error, and leaves
the store unchanged. -/
theorem create_questions_search_empty_ok (store : List Question)
    (page : Int) (term : String) (nq na : Option String)
    (nd nc : Option Nat) (new_id : Nat) (h : term ≠ "")
    (h0 : store.filter (fun q => ilike_match term q.question) = []) :
    create_questions store page nq na nd nc (some term) new_id =
      (CreateResp.okSearch [] 0 "All", store) := by
  have hperm := (orderById_perm store).filter
    (fun q => ilike_match term q.question)
  rw [h0] at hperm
  have hnil : (orderById store).filter
      (fun q => ilike_match term q.question) = [] :=
    List.Perm.eq_nil hperm
  simp [create_questions, h, hnil, paginated_questions, pySlice_nil]

theorem create_questions_search_empty_ok_witness :
    create_questions sampleStore 1 none none none none (some "zebra") 99 =
      (CreateResp.okSearch [] 0 "All", sampleStore) :=
  create_questions_search_empty_ok sampleStore 1 "zebra" none none none none
    99 (by decide) (by decide)

/-- C7: for every page whose slice of the id-ordered store is
non-empty, `GET /questions` answers 200 with at most 10 questions and
`total_questions` equal to the full unpaginated count of the store. -/
theorem retrieve_questions_page_contract (cats : List Category)
    (store : List Question) (page : Int)
    (h : paginated_questions page (orderById store) ≠ []) :
    retrieve_questions cats store page =
      ListResp.ok (paginated_questions page (orderById store)) store.length
        (get_categories cats) "All"
    ∧ (paginated_questions page (orderById store)).length ≤ 10 :=
  ⟨by simp [retrieve_questions, List.length_eq_zero, h],
   paginated_questions_length_le _ _⟩

theorem retrieve_questions_page_contract_witness :
    retrieve_questions sampleCats sampleStore 1 =
      ListResp.ok (paginated_questions 1 (orderById sampleStore))
        sampleStore.length (get_categories sampleCats) "All"
    ∧ (paginated_questions 1 (orderById sampleStore)).length ≤ 10 :=
  retrieve_questions_page_contract sampleCats sampleStore 1 (by decide)

/-- C8: for every 1-based page whose start index is at or beyond the
store length — every page beyond the last non-empty one —
`GET /questions` answers 404 with the resource-not-found envelope: the
handler turns the empty page produced by the pagination helper into
NotFound. -/
theorem retrieve_questions_beyond_last_404 (cats : List Category)
    (store : List Question) (page : Int) (h1 : 1 ≤ page)
    (h2 : (store.length : Int) ≤ (page - 1) * 10) :
    retrieve_questions cats store page =
      ListResp.err ⟨false, 404, "resource not found"⟩ := by
  have hempty : paginated_questions page (orderById store) = [] :=
    paginated_questions_out_of_range page (orderById store) h1
      (by rw [length_orderById]; exact h2)
  simp [retrieve_questions, hempty, errorBody]

theorem retrieve_questions_beyond_last_404_witness :
    retrieve_questions sampleCats sampleStore 1000 =
      ListResp.err ⟨false, 404, "resource not found"⟩ :=
  retrieve_questions_beyond_last_404 sampleCats sampleStore 1000 (by decide)
    (by decide)

/-- C9: for every drink id with no matching row, the bodies of
`PATCH /drinks/{id}` and `DELETE /drinks/{id}` (run once the permission
check has succeeded) answer 404 before any update or delete is
attempted, leaving the stored drinks unchanged. -/
theorem drinks_missing_id_404_unchanged (store : List Drink) (did : Nat)
    (new_title new_recipe : String) (h : ∀ d ∈ store, d.id ≠ did) :
    update_drinks store did new_title new_recipe =
      (DrinkPatchResp.err ⟨false, 404, "resource not found"⟩, store)
    ∧ delete_drinks store did =
      (DrinkDeleteResp.err ⟨false, 404, "resource not found"⟩, store) := by
  have hf : store.filter (fun d => d.id == did) = [] := by
    rw [List.filter_eq_nil_iff]
    intro d hd
    simpa using h d hd
  constructor
  · simp [update_drinks, hf, one_or_none, drinksErrorBody]
  · simp [delete_drinks, hf, one_or_none, drinksErrorBody]

theorem drinks_missing_id_404_unchanged_witness :
    update_drinks [⟨1, "water", "[]"⟩] 2 "tea" "[]" =
      (DrinkPatchResp.err ⟨false, 404, "resource not found"⟩,
       [⟨1, "water", "[]"⟩])
    ∧ delete_drinks [⟨1, "water", "[]"⟩] 2 =
      (DrinkDeleteResp.err ⟨false, 404, "resource not found"⟩,
       [⟨1, "water", "[]"⟩]) :=
  drinks_missing_id_404_unchanged [⟨1, "water", "[]"⟩] 2 "tea" "[]"
    (by decide)

/-- C10: for every category id whose filtered page is non-empty (and
which exists in the categories table, so that the unguarded
`Category.query.get(id).type` lookup succeeds),
`GET /categories/{id}/questions` answers with `total_questions` equal
to the length of the returned page — at most 10 — not the total number
of questions in that category. -/
theorem retrieve_by_category_total_is_page_length (cats : List Category)
    (store : List Question) (page : Int) (category_id : Nat) (cat : Category)
    (h1 : paginated_questions page
        (store.filter (fun q => q.category == category_id)) ≠ [])
    (h2 : cats.find? (fun c => c.id == category_id) = some cat) :
    retrieve_questions_by_category cats store page category_id =
      CatResp.ok
        (paginated_questions page
          (store.filter (fun q => q.category == category_id)))
        (paginated_questions page
          (store.filter (fun q => q.category == category_id))).length
        cat.type
    ∧ (paginated_questions page
        (store.filter (fun q => q.category == category_id))).length ≤ 10 :=
  ⟨by simp [retrieve_questions_by_category, List.length_eq_zero, h1, h2],
   paginated_questions_length_le _ _⟩

theorem retrieve_by_category_total_is_page_length_witness :
    retrieve_questions_by_category sampleCats sampleStore 1 2 =
      CatResp.ok
        (paginated_questions 1
          (sampleStore.filter (fun q => q.category == 2)))
        (paginated_questions 1
          (sampleStore.filter (fun q => q.category == 2))).length
        (⟨2, "Art"⟩ : Category).type
    ∧ (paginated_questions 1
        (sampleStore.filter (fun q => q.category == 2))).length ≤ 10 :=
  retrieve_by_category_total_is_page_length sampleCats sampleStore 1 2
    ⟨2, "Art"⟩ (by decide) (by decide)
